/-
Verification of the collaborative-editing components of hello-zero-solid.

The development shallowly embeds the pure logic of the repository:
  * the custom Zero mutators (src: mutators map; message, collaborativeDocument,
    contribution, sharedDocument, userCursor and canvasSquare namespaces) as
    explicit state transformers over a DB record, returning Except to model a
    thrown error aborting the transaction;
  * the debounced commit schedulers of CollaborativeEditor (syncToServer),
    TrueCollaborativeInput (syncContent) and CollaborativeInput (syncToServer)
    as small state machines over a pending-timer/commit-log state;
  * the merge/attribution memos of CollaborativeEditor together with the
    joinedAt-ascending ordering applied by the withContributions query;
  * the zone-partitioned handleInput of CollaborativeInput and the
    server-reconciliation effect of TrueCollaborativeInput.

JavaScript string primitives used by the components (trim, includes, indexOf,
substring, truthiness of strings) are modelled explicitly below; JS numbers
are modelled as Int where subtraction may go negative.
-/
import Mathlib

/-- Characters removed by JavaScript String.prototype.trim (the ASCII ones plus
NBSP; all contents in this repository are ASCII). -/
def isJsSpace (c : Char) : Bool :=
  c == ' ' || c == '\t' || c == '\n' || c == '\r' || c == '\u000b' ||
  c == '\u000c' || c == ' '

/-- JavaScript String.prototype.trim. -/
def jsTrim (s : String) : String :=
  String.mk (((s.data.dropWhile isJsSpace).reverse.dropWhile isJsSpace).reverse)

/-- Index of the first occurrence of pat in a character list, if any. -/
def subIndex : List Char → List Char → Option Nat
  | [], pat => if pat.isEmpty then some 0 else none
  | c :: rest, pat =>
    if pat.isPrefixOf (c :: rest) then some 0
    else (subIndex rest pat).map (· + 1)

/-- JavaScript String.prototype.includes. -/
def jsIncludes (s pat : String) : Bool :=
  (subIndex s.data pat.data).isSome

/-- JavaScript String.prototype.indexOf (-1 when absent). -/
def jsIndexOf (s pat : String) : Int :=
  match subIndex s.data pat.data with
  | some n => (n : Int)
  | none => -1

/-- JavaScript s.substring(0, n); a negative bound is clamped to 0. -/
def jsSubstringTo (s : String) (n : Int) : String :=
  String.mk (s.data.take n.toNat)

/-- JavaScript truthy-or for strings: s || d (empty string is falsy). -/
def jsOrString (s : Option String) (d : String) : String :=
  match s with
  | some v => if v = "" then d else v
  | none => d

/-- An input event on a textarea holding old: the selection [s, e) is replaced
by the typed/pasted text t, and the resulting caret sits at the end of t. -/
def spliceEdit (old : String) (s e : Nat) (t : String) : String :=
  String.mk (old.data.take s ++ t.data ++ old.data.drop e)

theorem string_mk_length (l : List Char) : (String.mk l).length = l.length := rfl

theorem spliceEdit_length (old : String) (s e : Nat) (t : String) :
    (spliceEdit old s e t).length =
      min s old.data.length + t.length + (old.data.length - e) := by
  show (old.data.take s ++ t.data ++ old.data.drop e).length = _
  rw [List.length_append, List.length_append, List.length_take, List.length_drop]
  rfl

/-- State of the debounced commit scheduler of one component: the pending timer with
its captured payload (none when no commit is pending) and the log of commit
payloads already issued to the mutation API. -/
structure DebounceState where
  timer : Option String
  commits : List String
deriving DecidableEq

namespace CollaborativeEditor

def MIN_CHARS_TO_SYNC : Nat := 1

/-- syncToServer of CollaborativeEditor.tsx: bail out when anonymous, otherwise
cancel any pending timer and arm a fresh one capturing this content. -/
def syncToServer (userID content : String) (st : DebounceState) : DebounceState :=
  if userID = "anon" then st
  else { st with timer := some content }

/-- The debounce timer elapsing: the pending callback runs once - it issues the
contribution.upsert commit when the content passes the minimum-length-or-clear
check - and the timer is no longer pending. -/
def timerElapse (st : DebounceState) : DebounceState :=
  match st.timer with
  | none => st
  | some content =>
    if MIN_CHARS_TO_SYNC ≤ content.length ∨ content = "" then
      { timer := none, commits := st.commits ++ [content] }
    else
      { timer := none, commits := st.commits }

/-- onCleanup of CollaborativeEditor.tsx: clearTimeout on the pending timer
and nothing else. -/
def onCleanup (st : DebounceState) : DebounceState :=
  { st with timer := none }

end CollaborativeEditor

namespace TrueCollaborativeInput

/-- syncContent of TrueCollaborativeInput.tsx: bail out when anonymous,
otherwise cancel any pending send and arm a fresh timer capturing content. -/
def syncContent (userID content : String) (st : DebounceState) : DebounceState :=
  if userID = "anon" then st
  else { st with timer := some content }

/-- The debounce timer elapsing: the sharedDocument.updateContent commit is
issued with the captured content. -/
def timerElapse (st : DebounceState) : DebounceState :=
  match st.timer with
  | none => st
  | some content => { timer := none, commits := st.commits ++ [content] }

/-- onCleanup of TrueCollaborativeInput.tsx: clearTimeout only. -/
def onCleanup (st : DebounceState) : DebounceState :=
  { st with timer := none }

end TrueCollaborativeInput

namespace CollaborativeInput

def SEPARATOR : String := "  |  "

/-- displayValue memo of CollaborativeInput (src/unnamed/part_000): my text,
then the separator and the text of the others, degenerating when either is empty. -/
def displayValue (mine others : String) : String :=
  if mine = "" ∧ others = "" then ""
  else if mine = "" then others
  else if others = "" then mine
  else mine ++ SEPARATOR ++ others

/-- syncToServer of CollaborativeInput: bail out when anonymous, otherwise
cancel any pending timer and arm a fresh one capturing this content. -/
def syncToServer (userID content : String) (st : DebounceState) : DebounceState :=
  if userID = "anon" then st
  else { st with timer := some content }

/-- The debounce timer elapsing: the contribution.upsert commit is issued with
the captured content. -/
def timerElapse (st : DebounceState) : DebounceState :=
  match st.timer with
  | none => st
  | some content => { timer := none, commits := st.commits ++ [content] }

/-- onCleanup of CollaborativeInput: clearTimeout only. -/
def onCleanup (st : DebounceState) : DebounceState :=
  { st with timer := none }

/-- Outcome of the handleInput handler: either the edit is accepted and the
local text becomes newMyText (with a debounced sync scheduled for it), or the
edit is rejected and the textarea is reset to value with the caret at cursor. -/
inductive InputOutcome where
  | accept (newMyText : String)
  | revert (value : String) (cursor : Nat)
deriving DecidableEq

/-- handleInput of CollaborativeInput, as a pure function of the current local
text, the combined text of the others, and the resulting textarea
value and caret position of the input event. JS number arithmetic (lengthDiff may be negative) is
carried out in Int. -/
def handleInput (currentMyText others newValue : String) (cursorPos : Nat) :
    InputOutcome :=
  let oldFullValue :=
    if others = "" then currentMyText else currentMyText ++ SEPARATOR ++ others
  let myZoneEnd := currentMyText.length
  let lengthDiff : Int := (newValue.length : Int) - (oldFullValue.length : Int)
  if (cursorPos : Int) ≤ (myZoneEnd : Int) + lengthDiff + 1 then
    let newMyText :=
      if others ≠ "" ∧ jsIncludes newValue SEPARATOR = true then
        jsSubstringTo newValue (jsIndexOf newValue SEPARATOR)
      else if others ≠ "" then
        jsSubstringTo newValue (max 0 ((myZoneEnd : Int) + lengthDiff))
      else
        newValue
    InputOutcome.accept newMyText
  else
    InputOutcome.revert (displayValue currentMyText others) myZoneEnd

end CollaborativeInput

/-- Row of the message table (src/shared/schema.ts). -/
structure MessageRow where
  id : String
  mediumID : String
  senderID : String
  body : String
  timestamp : Int
deriving DecidableEq

/-- Row of the collaborative_document table. -/
structure CollabDocRow where
  id : String
  title : String
  createdAt : Int
deriving DecidableEq

/-- Row of the contribution table. -/
structure ContributionRow where
  id : String
  documentId : String
  userID : String
  content : String
  updatedAt : Int
  joinedAt : Int
deriving DecidableEq

/-- Row of the shared_document table. -/
structure SharedDocRow where
  id : String
  content : String
  updatedAt : Int
deriving DecidableEq

/-- Row of the user_cursor table. -/
structure CursorRow where
  id : String
  documentId : String
  userID : String
  position : Int
  updatedAt : Int
deriving DecidableEq

/-- Row of the canvas_square table; draggedBy is the nullable drag-lock
holder (dragged_by column, optional in the schema). -/
structure SquareRow where
  id : String
  canvasId : String
  ownerID : String
  x : Int
  y : Int
  width : Int
  height : Int
  color : String
  draggedBy : Option String
  createdAt : Int
deriving DecidableEq

/-- The stored state the mutators act on: one list of rows per table. -/
structure DB where
  messages : List MessageRow
  collabDocs : List CollabDocRow
  contributions : List ContributionRow
  sharedDocs : List SharedDocRow
  userCursors : List CursorRow
  canvasSquares : List SquareRow
deriving DecidableEq

def emptyDB : DB := ⟨[], [], [], [], [], []⟩

/-- One low-level tx.mutate call issued by a mutator, recorded so that side
effects (which writes a mutator issues) can be stated, not only final states. -/
inductive Write where
  | insertMessage (row : MessageRow)
  | deleteMessage (id : String)
  | updateMessageBody (id body : String)
  | insertCollabDoc (row : CollabDocRow)
  | insertContribution (row : ContributionRow)
  | updateContribution (id content : String) (updatedAt : Int)
  | updateSharedDocument (id content : String) (updatedAt : Int)
  | insertUserCursor (row : CursorRow)
  | updateUserCursor (id : String) (position updatedAt : Int)
  | deleteUserCursor (id : String)
  | insertCanvasSquare (row : SquareRow)
  | updateCanvasSquareDrag (id : String) (draggedBy : Option String)
  | updateCanvasSquarePosition (id : String) (x y : Int)
  | updateCanvasSquareRelease (id : String) (x y : Int)
  | deleteCanvasSquare (id : String)
deriving DecidableEq

/-- True for the tx.mutate calls touching the user_cursor table. -/
def Write.isCursorWrite : Write → Bool
  | .insertUserCursor _ => true
  | .updateUserCursor _ _ _ => true
  | .deleteUserCursor _ => true
  | _ => false

/-- mustBeLoggedIn (shared/mutators.ts): throws "Must be logged in" when there
is no authenticated context, otherwise yields the userID of the actor. -/
def mustBeLoggedIn (ctx : Option String) : Except String String :=
  match ctx with
  | none => Except.error "Must be logged in"
  | some userID => Except.ok userID

namespace message

/-- message.create mutator: inserts the row unconditionally (note: there is no
mustBeLoggedIn call in this mutator). -/
def create (id mediumID senderID body : String) (timestamp : Int) (db : DB) :
    Except String (DB × List Write) :=
  let row : MessageRow := ⟨id, mediumID, senderID, body, timestamp⟩
  Except.ok ({ db with messages := db.messages ++ [row] }, [Write.insertMessage row])

/-- message.delete mutator: requires login, then deletes by primary key. -/
def deleteRow (ctx : Option String) (id : String) (db : DB) :
    Except String (DB × List Write) := do
  let _ ← mustBeLoggedIn ctx
  Except.ok ({ db with messages := db.messages.filter (fun m => !(m.id == id)) },
    [Write.deleteMessage id])

/-- message.update mutator: requires login; no-op when the message does not
exist; throws unless the caller is the sender; otherwise updates the body. -/
def update (ctx : Option String) (id body : String) (db : DB) :
    Except String (DB × List Write) := do
  let u ← mustBeLoggedIn ctx
  match db.messages.find? (fun m => m.id == id) with
  | none => Except.ok (db, [])
  | some prev =>
    if prev.senderID ≠ u then
      Except.error "Must be sender of message to edit"
    else
      Except.ok
        ({ db with messages :=
            db.messages.map (fun m => if m.id == id then { m with body := body } else m) },
          [Write.updateMessageBody id body])

end message

namespace collaborativeDocument

/-- collaborativeDocument.create mutator: inserts the row with createdAt set to
Date.now() (note: there is no mustBeLoggedIn call in this mutator). -/
def create (now : Int) (id title : String) (db : DB) :
    Except String (DB × List Write) :=
  let row : CollabDocRow := ⟨id, title, now⟩
  Except.ok ({ db with collabDocs := db.collabDocs ++ [row] },
    [Write.insertCollabDoc row])

end collaborativeDocument

namespace contribution

/-- contribution.upsert mutator: requires login; updates the existing
contribution of the caller for the document, or inserts a fresh one with joinedAt = now. -/
def upsert (ctx : Option String) (now : Int) (id documentId content : String)
    (db : DB) : Except String (DB × List Write) := do
  let u ← mustBeLoggedIn ctx
  match db.contributions.find?
      (fun c => c.documentId == documentId && c.userID == u) with
  | some existing =>
    Except.ok
      ({ db with contributions :=
          db.contributions.map (fun c =>
            if c.id == existing.id then
              { c with content := content, updatedAt := now }
            else c) },
        [Write.updateContribution existing.id content now])
  | none =>
    let row : ContributionRow := ⟨id, documentId, u, content, now, now⟩
    Except.ok ({ db with contributions := db.contributions ++ [row] },
      [Write.insertContribution row])

/-- contribution.clear mutator: requires login; empties the existing
contribution of the caller for the document, no-op when there is none. -/
def clear (ctx : Option String) (now : Int) (documentId : String) (db : DB) :
    Except String (DB × List Write) := do
  let u ← mustBeLoggedIn ctx
  match db.contributions.find?
      (fun c => c.documentId == documentId && c.userID == u) with
  | some existing =>
    Except.ok
      ({ db with contributions :=
          db.contributions.map (fun c =>
            if c.id == existing.id then
              { c with content := "", updatedAt := now }
            else c) },
        [Write.updateContribution existing.id "" now])
  | none => Except.ok (db, [])

end contribution

namespace sharedDocument

/-- sharedDocument.updateContent mutator: requires login, then updates the
content and updatedAt of the document. The cursorPosition argument accepted by the
zod schema is never read by the mutator body. -/
def updateContent (ctx : Option String) (now : Int)
    (documentId content : String) (cursorPosition : Int) (db : DB) :
    Except String (DB × List Write) := do
  let _ ← mustBeLoggedIn ctx
  Except.ok
    ({ db with sharedDocs :=
        db.sharedDocs.map (fun d =>
          if d.id == documentId then
            { d with content := content, updatedAt := now }
          else d) },
      [Write.updateSharedDocument documentId content now])

end sharedDocument

namespace userCursor

/-- userCursor.update mutator: requires login; updates the cursor row of the caller
for the document or inserts a fresh one. -/
def update (ctx : Option String) (now : Int) (id documentId : String)
    (position : Int) (db : DB) : Except String (DB × List Write) := do
  let u ← mustBeLoggedIn ctx
  match db.userCursors.find?
      (fun c => c.documentId == documentId && c.userID == u) with
  | some existing =>
    Except.ok
      ({ db with userCursors :=
          db.userCursors.map (fun c =>
            if c.id == existing.id then
              { c with position := position, updatedAt := now }
            else c) },
        [Write.updateUserCursor existing.id position now])
  | none =>
    let row : CursorRow := ⟨id, documentId, u, position, now⟩
    Except.ok ({ db with userCursors := db.userCursors ++ [row] },
      [Write.insertUserCursor row])

/-- userCursor.remove mutator: requires login; deletes the cursor row of the caller
for the document when it exists. -/
def remove (ctx : Option String) (documentId : String) (db : DB) :
    Except String (DB × List Write) := do
  let u ← mustBeLoggedIn ctx
  match db.userCursors.find?
      (fun c => c.documentId == documentId && c.userID == u) with
  | some existing =>
    Except.ok
      ({ db with userCursors :=
          db.userCursors.filter (fun c => !(c.id == existing.id)) },
        [Write.deleteUserCursor existing.id])
  | none => Except.ok (db, [])

end userCursor

namespace canvasSquare

/-- canvasSquare.create mutator: requires login; inserts an 80x80 square owned
by the caller with draggedBy null. -/
def create (ctx : Option String) (now : Int) (id canvasId : String) (x y : Int)
    (color : String) (db : DB) : Except String (DB × List Write) := do
  let u ← mustBeLoggedIn ctx
  let row : SquareRow := ⟨id, canvasId, u, x, y, 80, 80, color, none, now⟩
  Except.ok ({ db with canvasSquares := db.canvasSquares ++ [row] },
    [Write.insertCanvasSquare row])

/-- canvasSquare.startDrag mutator: requires login; no-op when the square does
not exist; throws when the square is already dragged by a different user (the
JS guard square.draggedBy && square.draggedBy !== ctx.userID, so an empty
string holder is falsy); otherwise sets draggedBy to the caller. -/
def startDrag (ctx : Option String) (id : String) (db : DB) :
    Except String (DB × List Write) := do
  let u ← mustBeLoggedIn ctx
  match db.canvasSquares.find? (fun q => q.id == id) with
  | none => Except.ok (db, [])
  | some square =>
    let locked : Bool :=
      match square.draggedBy with
      | some v => !(v == "") && !(v == u)
      | none => false
    if locked then
      Except.error "Square is being dragged by another user"
    else
      Except.ok
        ({ db with canvasSquares :=
            db.canvasSquares.map (fun q =>
              if q.id == id then { q with draggedBy := some u } else q) },
          [Write.updateCanvasSquareDrag id (some u)])

/-- canvasSquare.updatePosition mutator: requires login; no-op when the square
does not exist or the caller is not the dragger; otherwise updates x and y. -/
def updatePosition (ctx : Option String) (id : String) (x y : Int) (db : DB) :
    Except String (DB × List Write) := do
  let u ← mustBeLoggedIn ctx
  match db.canvasSquares.find? (fun q => q.id == id) with
  | none => Except.ok (db, [])
  | some square =>
    if square.draggedBy ≠ some u then
      Except.ok (db, [])
    else
      Except.ok
        ({ db with canvasSquares :=
            db.canvasSquares.map (fun q =>
              if q.id == id then { q with x := x, y := y } else q) },
          [Write.updateCanvasSquarePosition id x y])

/-- canvasSquare.endDrag mutator: requires login; no-op when the square does
not exist or the caller is not the dragger; otherwise sets the final position
and clears draggedBy in the same update. -/
def endDrag (ctx : Option String) (id : String) (x y : Int) (db : DB) :
    Except String (DB × List Write) := do
  let u ← mustBeLoggedIn ctx
  match db.canvasSquares.find? (fun q => q.id == id) with
  | none => Except.ok (db, [])
  | some square =>
    if square.draggedBy ≠ some u then
      Except.ok (db, [])
    else
      Except.ok
        ({ db with canvasSquares :=
            db.canvasSquares.map (fun q =>
              if q.id == id then { q with x := x, y := y, draggedBy := none } else q) },
          [Write.updateCanvasSquareRelease id x y])

/-- canvasSquare.delete mutator: requires login; no-op when the square does not
exist; throws unless the caller is the owner; otherwise deletes the row. -/
def deleteRow (ctx : Option String) (id : String) (db : DB) :
    Except String (DB × List Write) := do
  let u ← mustBeLoggedIn ctx
  match db.canvasSquares.find? (fun q => q.id == id) with
  | none => Except.ok (db, [])
  | some square =>
    if square.ownerID ≠ u then
      Except.error "Only the owner can delete a square"
    else
      Except.ok
        ({ db with canvasSquares :=
            db.canvasSquares.filter (fun q => !(q.id == id)) },
          [Write.deleteCanvasSquare id])

end canvasSquare

/-- One call into the mutators map, with the zod-validated arguments of the
corresponding mutator. -/
inductive MutationCall where
  | messageCreate (id mediumID senderID body : String) (timestamp : Int)
  | messageDelete (id : String)
  | messageUpdate (id body : String)
  | collaborativeDocumentCreate (id title : String)
  | contributionUpsert (id documentId content : String)
  | contributionClear (documentId : String)
  | sharedDocumentUpdateContent (documentId content : String) (cursorPosition : Int)
  | userCursorUpdate (id documentId : String) (position : Int)
  | userCursorRemove (documentId : String)
  | canvasSquareCreate (id canvasId : String) (x y : Int) (color : String)
  | canvasSquareStartDrag (id : String)
  | canvasSquareUpdatePosition (id : String) (x y : Int)
  | canvasSquareEndDrag (id : String) (x y : Int)
  | canvasSquareDelete (id : String)
deriving DecidableEq

/-- The two mutators whose bodies never call mustBeLoggedIn. -/
def MutationCall.skipsAuthCheck : MutationCall → Bool
  | .messageCreate _ _ _ _ _ => true
  | .collaborativeDocumentCreate _ _ => true
  | _ => false

/-- Dispatch a mutation call to its mutator. ctx is the userID of the authenticated
actor (none for an unauthenticated actor), now is Date.now(). An Except.error
result models a thrown error: the transaction aborts and no write applies. -/
def applyMutation (ctx : Option String) (now : Int) (call : MutationCall)
    (db : DB) : Except String (DB × List Write) :=
  match call with
  | .messageCreate id mediumID senderID body timestamp =>
    message.create id mediumID senderID body timestamp db
  | .messageDelete id => message.deleteRow ctx id db
  | .messageUpdate id body => message.update ctx id body db
  | .collaborativeDocumentCreate id title =>
    collaborativeDocument.create now id title db
  | .contributionUpsert id documentId content =>
    contribution.upsert ctx now id documentId content db
  | .contributionClear documentId => contribution.clear ctx now documentId db
  | .sharedDocumentUpdateContent documentId content cursorPosition =>
    sharedDocument.updateContent ctx now documentId content cursorPosition db
  | .userCursorUpdate id documentId position =>
    userCursor.update ctx now id documentId position db
  | .userCursorRemove documentId => userCursor.remove ctx documentId db
  | .canvasSquareCreate id canvasId x y color =>
    canvasSquare.create ctx now id canvasId x y color db
  | .canvasSquareStartDrag id => canvasSquare.startDrag ctx id db
  | .canvasSquareUpdatePosition id x y =>
    canvasSquare.updatePosition ctx id x y db
  | .canvasSquareEndDrag id x y => canvasSquare.endDrag ctx id x y db
  | .canvasSquareDelete id => canvasSquare.deleteRow ctx id db

/-- The state after one submitted mutation: the new state on success, the old
state when the mutator threw (the transaction aborted). -/
def applyStep (ctx : Option String) (now : Int) (call : MutationCall)
    (db : DB) : DB :=
  match applyMutation ctx now call db with
  | Except.ok (db2, _) => db2
  | Except.error _ => db

/-- The state after a sequence of submitted mutations, each tagged with its
context of the caller and the submission time. -/
def applySeq : List (Option String × Int × MutationCall) → DB → DB
  | [], db => db
  | (ctx, now, call) :: rest, db => applySeq rest (applyStep ctx now call db)

namespace CollaborativeEditor

/-- One contribution as the withContributions query delivers it to the
component: the name of the related user (none when the user row is missing), the
content and the joinedAt ordering key. -/
structure ContributionView where
  name : Option String
  content : String
  joinedAt : Int
deriving DecidableEq

/-- Ordering relation of the withContributions query: joinedAt ascending. -/
def byJoinedAt (a b : ContributionView) : Prop :=
  a.joinedAt ≤ b.joinedAt

instance : DecidableRel byJoinedAt := fun a b => Int.decLe a.joinedAt b.joinedAt

instance : IsTotal ContributionView byJoinedAt :=
  ⟨fun a b => Int.le_total a.joinedAt b.joinedAt⟩

instance : IsTrans ContributionView byJoinedAt :=
  ⟨fun _ _ _ h h2 => Int.le_trans h h2⟩

/-- The contributions list as the withContributions query materializes it:
ordered by joinedAt ascending (insertionSort is a stable sort, matching the
deterministic order the spec requires). -/
def orderByJoinedAt (l : List ContributionView) : List ContributionView :=
  List.insertionSort byJoinedAt l

/-- The non-empty-trimmed-content filter c.content.trim() !== "" shared by the
three memos. -/
def hasContent (c : ContributionView) : Bool :=
  !(jsTrim c.content == "")

/-- The label of one contribution: [name]: content with the user name
defaulting to Unknown (JS c.user?.name || "Unknown"). -/
def contributionLabel (c : ContributionView) : String :=
  "[" ++ jsOrString c.name "Unknown" ++ "]: " ++ c.content

/-- combinedTextWithLabels memo composed with the query ordering: keep the
contributions with non-empty trimmed content, label each, join with " | ". -/
def combinedTextWithLabels (l : List ContributionView) : String :=
  String.intercalate " | "
    (((orderByJoinedAt l).filter hasContent).map contributionLabel)

/-- plainCombinedText memo composed with the query ordering: same filter and
order, contents only, joined by the double-space separator. -/
def plainCombinedText (l : List ContributionView) : String :=
  String.intercalate "  "
    (((orderByJoinedAt l).filter hasContent).map (fun c => c.content))

/-- contributorCount memo: how many contributions pass the filter. -/
def contributorCount (l : List ContributionView) : Nat :=
  ((orderByJoinedAt l).filter hasContent).length

end CollaborativeEditor

namespace TrueCollaborativeInput

/-- The remote-reconciliation createEffect of TrueCollaborativeInput.tsx, as a
pure function of the incoming server content, the current textarea content
and caret: when the server content differs, the textarea is replaced by it and
the caret is shifted by the length delta, clamped via
Math.max(0, Math.min(cursorPos + lengthDiff, newLength)). -/
def reconcileRemote (serverContent currentContent : String)
    (selectionStart : Nat) : String × Nat :=
  if serverContent ≠ currentContent then
    let cursorPos : Int := (selectionStart : Int)
    let oldLength : Int := (currentContent.length : Int)
    let newLength : Int := (serverContent.length : Int)
    let lengthDiff : Int := newLength - oldLength
    let newCursorPos : Int := max 0 (min (cursorPos + lengthDiff) newLength)
    (serverContent, newCursorPos.toNat)
  else
    (currentContent, selectionStart)

/-- Modelled from the words of the spec for comparison with the code: the new
cursor position is the old cursor position plus the length difference between
the new and old content, clamped to the range [0, length of the new content].
-/
def specCursorShift (oldPos oldLen newLen : Nat) : Nat :=
  let shifted : Int := (oldPos : Int) + ((newLen : Int) - (oldLen : Int))
  let clamped : Int := min (max shifted 0) (newLen : Int)
  clamped.toNat

end TrueCollaborativeInput

theorem list_map_id_of_eq {α : Type} (l : List α) (f : α → α)
    (h : ∀ a ∈ l, f a = a) : l.map f = l := by
  induction l with
  | nil => rfl
  | cons a rest ih =>
    simp only [List.map_cons, h a (by simp)]
    rw [ih (fun b hb => h b (by simp [hb]))]

theorem debounce_foldl_last (f : DebounceState → String → DebounceState)
    (hf : ∀ st c, f st c = { st with timer := some c }) :
    ∀ (cs : List String) (st0 : DebounceState) (c : String),
      cs.getLast? = some c → cs.foldl f st0 = ⟨some c, st0.commits⟩ := by
  intro cs
  induction cs with
  | nil => intro st0 c h; simp at h
  | cons a rest ih =>
    intro st0 c h
    cases rest with
    | nil =>
      simp only [List.getLast?_singleton, Option.some.injEq] at h
      subst h
      rw [List.foldl_cons, List.foldl_nil, hf]
    | cons b bs =>
      rw [List.getLast?_cons_cons] at h
      rw [List.foldl_cons, hf]
      exact ih _ c h

theorem editor_min_chars_check (c : String) :
    CollaborativeEditor.MIN_CHARS_TO_SYNC ≤ c.length ∨ c = "" := by
  by_cases h : c = ""
  · right; exact h
  · left
    have hd : c.data ≠ [] := by
      intro hnil
      exact h (by cases c; simp_all)
    exact List.length_pos.mpr hd

/-- C2 counterexample: in each of the three editors, schedule one debounced
commit for payload "x" (the timer is now pending) and then tear the component
down; the resulting scheduler state has no pending timer and an empty commit
log - the pending edit was dropped, no commit carrying "x" was issued, contrary
to the claimed flush-on-teardown. -/
theorem C2_counterexample :
    CollaborativeEditor.onCleanup
        (CollaborativeEditor.syncToServer "u1" "x" ⟨none, []⟩) = ⟨none, []⟩ ∧
    TrueCollaborativeInput.onCleanup
        (TrueCollaborativeInput.syncContent "u1" "x" ⟨none, []⟩) = ⟨none, []⟩ ∧
    CollaborativeInput.onCleanup
        (CollaborativeInput.syncToServer "u1" "x" ⟨none, []⟩) = ⟨none, []⟩ := by
  refine ⟨rfl, rfl, rfl⟩

/-- C2 (amended): if any of the three editing components is torn down while a
debounced commit timer is pending, the pending timer is cancelled and the
pending edit is dropped: no commit is issued on teardown (the commit log is
exactly what it was before). -/
theorem C2_teardown_drops_pending_commit (st : DebounceState) (c : String)
    (hpending : st.timer = some c) :
    CollaborativeEditor.onCleanup st = ⟨none, st.commits⟩ ∧
    TrueCollaborativeInput.onCleanup st = ⟨none, st.commits⟩ ∧
    CollaborativeInput.onCleanup st = ⟨none, st.commits⟩ := by
  refine ⟨rfl, rfl, rfl⟩

/-- C2 witness: the amended theorem applied to a state with a pending commit
for payload "x". -/
theorem C2_teardown_witness :
    CollaborativeEditor.onCleanup ⟨some "x", []⟩ = ⟨none, []⟩ ∧
    TrueCollaborativeInput.onCleanup ⟨some "x", []⟩ = ⟨none, []⟩ ∧
    CollaborativeInput.onCleanup ⟨some "x", []⟩ = ⟨none, []⟩ :=
  C2_teardown_drops_pending_commit ⟨some "x", []⟩ "x" rfl

/-- C3: in each of the three editors, any non-empty burst of calls to the
debounced sync function within the quiescence window (so the timer is re-armed
each time and elapses only after the last call) issues exactly one commit when
the window elapses, and its payload is the content passed to the last call. -/
theorem C3_debounce_coalescing (u : String) (hu : u ≠ "anon")
    (cs : List String) (c : String) (hlast : cs.getLast? = some c)
    (st0 : DebounceState) :
    CollaborativeEditor.timerElapse
        (cs.foldl (fun st x => CollaborativeEditor.syncToServer u x st) st0)
      = ⟨none, st0.commits ++ [c]⟩ ∧
    TrueCollaborativeInput.timerElapse
        (cs.foldl (fun st x => TrueCollaborativeInput.syncContent u x st) st0)
      = ⟨none, st0.commits ++ [c]⟩ ∧
    CollaborativeInput.timerElapse
        (cs.foldl (fun st x => CollaborativeInput.syncToServer u x st) st0)
      = ⟨none, st0.commits ++ [c]⟩ := by
  have h1 : ∀ st x, CollaborativeEditor.syncToServer u x st
      = { st with timer := some x } := by
    intro st x; simp [CollaborativeEditor.syncToServer, hu]
  have h2 : ∀ st x, TrueCollaborativeInput.syncContent u x st
      = { st with timer := some x } := by
    intro st x; simp [TrueCollaborativeInput.syncContent, hu]
  have h3 : ∀ st x, CollaborativeInput.syncToServer u x st
      = { st with timer := some x } := by
    intro st x; simp [CollaborativeInput.syncToServer, hu]
  refine ⟨?_, ?_, ?_⟩
  · rw [debounce_foldl_last _ h1 cs st0 c hlast]
    show CollaborativeEditor.timerElapse ⟨some c, st0.commits⟩ = _
    simp only [CollaborativeEditor.timerElapse]
    rw [if_pos (editor_min_chars_check c)]
  · rw [debounce_foldl_last _ h2 cs st0 c hlast]
    rfl
  · rw [debounce_foldl_last _ h3 cs st0 c hlast]
    rfl

/-- C3 witness: two rapid calls (contents "a" then "ab") by user "u1" from the
idle state; after the window elapses each scheduler has issued exactly the one
commit "ab". -/
theorem C3_coalescing_witness :
    CollaborativeEditor.timerElapse
        ((["a", "ab"]).foldl
          (fun st x => CollaborativeEditor.syncToServer "u1" x st) ⟨none, []⟩)
      = ⟨none, [] ++ ["ab"]⟩ ∧
    TrueCollaborativeInput.timerElapse
        ((["a", "ab"]).foldl
          (fun st x => TrueCollaborativeInput.syncContent "u1" x st) ⟨none, []⟩)
      = ⟨none, [] ++ ["ab"]⟩ ∧
    CollaborativeInput.timerElapse
        ((["a", "ab"]).foldl
          (fun st x => CollaborativeInput.syncToServer "u1" x st) ⟨none, []⟩)
      = ⟨none, [] ++ ["ab"]⟩ :=
  C3_debounce_coalescing "u1" (by decide) ["a", "ab"] "ab" (by decide) ⟨none, []⟩

/-- C4: on the contribution set [(A, "", 1), (B, "hi", 2), (C, " ", 0)] the
labeled view is "[B]: hi", the plain view is "hi" and the contributor count is
1; and in general both views keep exactly the contributions with non-empty
trimmed content (a permutation of the plain filter), in joinedAt-ascending
order, the plain view joined by the double-space separator. -/
theorem C4_merge_filter_order :
    (CollaborativeEditor.combinedTextWithLabels
        [⟨some "A", "", 1⟩, ⟨some "B", "hi", 2⟩, ⟨some "C", " ", 0⟩] = "[B]: hi" ∧
      CollaborativeEditor.plainCombinedText
        [⟨some "A", "", 1⟩, ⟨some "B", "hi", 2⟩, ⟨some "C", " ", 0⟩] = "hi" ∧
      CollaborativeEditor.contributorCount
        [⟨some "A", "", 1⟩, ⟨some "B", "hi", 2⟩, ⟨some "C", " ", 0⟩] = 1) ∧
    ∀ l : List CollaborativeEditor.ContributionView,
      List.Perm
          ((CollaborativeEditor.orderByJoinedAt l).filter CollaborativeEditor.hasContent)
          (l.filter CollaborativeEditor.hasContent) ∧
        List.Sorted CollaborativeEditor.byJoinedAt
          ((CollaborativeEditor.orderByJoinedAt l).filter CollaborativeEditor.hasContent) ∧
        CollaborativeEditor.plainCombinedText l =
          String.intercalate "  "
            (((CollaborativeEditor.orderByJoinedAt l).filter
                CollaborativeEditor.hasContent).map (fun c => c.content)) ∧
        CollaborativeEditor.combinedTextWithLabels l =
          String.intercalate " | "
            (((CollaborativeEditor.orderByJoinedAt l).filter
                CollaborativeEditor.hasContent).map
              CollaborativeEditor.contributionLabel) := by
  refine ⟨by decide, ?_⟩
  intro l
  refine ⟨?_, ?_, rfl, rfl⟩
  · exact (List.perm_insertionSort CollaborativeEditor.byJoinedAt l).filter _
  · exact (List.sorted_insertionSort CollaborativeEditor.byJoinedAt l).filter _

/-- The reject branch of handleInput: when the caret lands beyond the local
zone (accounting for the length delta), the field is reset to displayValue and
the caret is pinned to the end of the local zone. -/
theorem handleInput_revert (myText others newValue : String) (cursorPos : Nat)
    (h : ¬ ((cursorPos : Int) ≤ (myText.length : Int) +
        ((newValue.length : Int) -
          (((if others = "" then myText
              else myText ++ CollaborativeInput.SEPARATOR ++ others).length : Nat) : Int)) + 1)) :
    CollaborativeInput.handleInput myText others newValue cursorPos
      = CollaborativeInput.InputOutcome.revert
          (CollaborativeInput.displayValue myText others) myText.length := by
  simp only [CollaborativeInput.handleInput]
  rw [if_neg h]

/-- C5: in the zone-partitioned editor with local text "ab" and the text of the others being
"cd" (field "ab  |  cd", the segment of the others starting at index 7), any input event
whose edited region [s, e) reaches into the segment of the others (7 ≤ e, so the
resulting caret s + t.length sits at or past the start of what remains of the
segment of the others) is rejected: the field reverts to "ab  |  cd" and the caret is
pinned to position 2, the end of the local zone. -/
theorem C5_partition_boundary (s e : Nat) (t : String)
    (hse : s ≤ e) (he : e ≤ 9) (hsev : 7 ≤ e) :
    CollaborativeInput.handleInput "ab" "cd"
        (spliceEdit "ab  |  cd" s e t) (s + t.length)
      = CollaborativeInput.InputOutcome.revert "ab  |  cd" 2 := by
  refine (handleInput_revert "ab" "cd" _ _ ?_).trans ?_
  · have hif : (if ("cd" : String) = "" then ("ab" : String)
        else "ab" ++ CollaborativeInput.SEPARATOR ++ "cd") = "ab  |  cd" := by decide
    have hlen := spliceEdit_length "ab  |  cd" s e t
    have hdata : ("ab  |  cd" : String).data.length = 9 := rfl
    have h2 : ("ab" : String).length = 2 := rfl
    have h9 : ("ab  |  cd" : String).length = 9 := rfl
    rw [hif, hlen, hdata, h2, h9]
    intro hc
    omega
  · decide

/-- C5 witness: typing "x" between the c and the d of the segment of the others
(selection [8, 8), resulting field "ab  |  cxd", caret 9) is rejected. -/
theorem C5_partition_witness :
    CollaborativeInput.handleInput "ab" "cd"
        (spliceEdit "ab  |  cd" 8 8 "x") (8 + "x".length)
      = CollaborativeInput.InputOutcome.revert "ab  |  cd" 2 :=
  C5_partition_boundary 8 8 "x" (by decide) (by decide) (by decide)

/-- C9: whenever the reconciliation effect of TrueCollaborativeInput replaces
the textarea content (the incoming server content differs from the current
content), the new value is the server content and the new caret equals the old
caret plus the length difference between new and old content, clamped to
[0, length of the new content] (the spec-side clamp specCursorShift). -/
theorem C9_cursor_preservation (serverContent currentContent : String)
    (selectionStart : Nat) (hne : serverContent ≠ currentContent) :
    TrueCollaborativeInput.reconcileRemote serverContent currentContent selectionStart
      = (serverContent,
          TrueCollaborativeInput.specCursorShift selectionStart
            currentContent.length serverContent.length) := by
  simp only [TrueCollaborativeInput.reconcileRemote,
    TrueCollaborativeInput.specCursorShift, if_pos hne]
  refine congrArg (Prod.mk serverContent) (congrArg Int.toNat ?_)
  omega

/-- C9 witness: server content "abc" arriving over current content "a" with the
caret at 1 puts the caret at 1 + (3 - 1) = 3, clamped to [0, 3]. -/
theorem C9_cursor_witness :
    TrueCollaborativeInput.reconcileRemote "abc" "a" 1
      = ("abc", TrueCollaborativeInput.specCursorShift 1 ("a" : String).length
          ("abc" : String).length) :=
  C9_cursor_preservation "abc" "a" 1 (by decide)

/-- C1: in every state reachable by any sequence of mutator calls from the
empty state, the draggedBy of every square is null or exactly one actor id (it is an
Option String holding at most one holder); and startDrag by an actor u on a
square whose draggedBy is a different actor id v (a real actor id, so non-empty
- an empty holder is falsy in the JS guard) throws "Square is being dragged by
another user" and, the transaction aborting, leaves the state unchanged. -/
theorem C1_at_most_one_holder :
    (∀ steps : List (Option String × Int × MutationCall),
      ∀ sq ∈ (applySeq steps emptyDB).canvasSquares,
        sq.draggedBy = none ∨ ∃ u, sq.draggedBy = some u) ∧
    (∀ (db : DB) (u v sqId : String) (now : Int) (sq : SquareRow),
      db.canvasSquares.find? (fun q => q.id == sqId) = some sq →
      sq.draggedBy = some v → v ≠ "" → v ≠ u →
      applyMutation (some u) now (MutationCall.canvasSquareStartDrag sqId) db
        = Except.error "Square is being dragged by another user" ∧
      applyStep (some u) now (MutationCall.canvasSquareStartDrag sqId) db = db) := by
  constructor
  · intro steps sq _
    cases h : sq.draggedBy with
    | none => exact Or.inl rfl
    | some u => exact Or.inr ⟨u, rfl⟩
  · intro db u v sqId now sq hfind hd hv hvu
    have herr : applyMutation (some u) now (MutationCall.canvasSquareStartDrag sqId) db
        = Except.error "Square is being dragged by another user" := by
      simp only [applyMutation, canvasSquare.startDrag, mustBeLoggedIn]
      rw [hfind]
      simp [hd, hv, hvu, Bind.bind, Except.bind]
    exact ⟨herr, by simp [applyStep, herr]⟩

/-- C1 witness: the denial half of the theorem at a square held by "u2" and a
startDrag by "u1". -/
theorem C1_witness :
    applyMutation (some "u1") 0 (MutationCall.canvasSquareStartDrag "s1")
        ⟨[], [], [], [], [], [⟨"s1", "c1", "u1", 0, 0, 80, 80, "#e74c3c", some "u2", 0⟩]⟩
      = Except.error "Square is being dragged by another user" ∧
    applyStep (some "u1") 0 (MutationCall.canvasSquareStartDrag "s1")
        ⟨[], [], [], [], [], [⟨"s1", "c1", "u1", 0, 0, 80, 80, "#e74c3c", some "u2", 0⟩]⟩
      = ⟨[], [], [], [], [], [⟨"s1", "c1", "u1", 0, 0, 80, 80, "#e74c3c", some "u2", 0⟩]⟩ :=
  C1_at_most_one_holder.2 _ "u1" "u2" "s1" 0
    ⟨"s1", "c1", "u1", 0, 0, 80, 80, "#e74c3c", some "u2", 0⟩
    (by decide) rfl (by decide) (by decide)

/-- C6: a canvasSquare.delete by a logged-in actor who is not the owner of the square throws "Only the owner can delete a square" and leaves the state
unchanged; a delete by the owner succeeds and removes the square (no square
with that id remains). -/
theorem C6_owner_only_delete :
    (∀ (db : DB) (u sqId : String) (now : Int) (sq : SquareRow),
      db.canvasSquares.find? (fun q => q.id == sqId) = some sq →
      sq.ownerID ≠ u →
      applyMutation (some u) now (MutationCall.canvasSquareDelete sqId) db
        = Except.error "Only the owner can delete a square" ∧
      applyStep (some u) now (MutationCall.canvasSquareDelete sqId) db = db) ∧
    (∀ (db : DB) (sqId : String) (now : Int) (sq : SquareRow),
      db.canvasSquares.find? (fun q => q.id == sqId) = some sq →
      applyMutation (some sq.ownerID) now (MutationCall.canvasSquareDelete sqId) db
        = Except.ok
            ({ db with canvasSquares := db.canvasSquares.filter (fun q => !(q.id == sqId)) },
              [Write.deleteCanvasSquare sqId]) ∧
      ∀ q ∈ (applyStep (some sq.ownerID) now
          (MutationCall.canvasSquareDelete sqId) db).canvasSquares,
        q.id ≠ sqId) := by
  constructor
  · intro db u sqId now sq hfind hne
    have herr : applyMutation (some u) now (MutationCall.canvasSquareDelete sqId) db
        = Except.error "Only the owner can delete a square" := by
      simp only [applyMutation, canvasSquare.deleteRow, mustBeLoggedIn]
      rw [hfind]
      simp [hne, Bind.bind, Except.bind]
    exact ⟨herr, by simp [applyStep, herr]⟩
  · intro db sqId now sq hfind
    have hok : applyMutation (some sq.ownerID) now (MutationCall.canvasSquareDelete sqId) db
        = Except.ok
            ({ db with canvasSquares := db.canvasSquares.filter (fun q => !(q.id == sqId)) },
              [Write.deleteCanvasSquare sqId]) := by
      simp only [applyMutation, canvasSquare.deleteRow, mustBeLoggedIn]
      rw [hfind]
      simp [Bind.bind, Except.bind]
    refine ⟨hok, ?_⟩
    intro q hq
    have hstep : applyStep (some sq.ownerID) now (MutationCall.canvasSquareDelete sqId) db
        = { db with canvasSquares := db.canvasSquares.filter (fun q => !(q.id == sqId)) } := by
      simp [applyStep, hok]
    rw [hstep] at hq
    simp only [List.mem_filter] at hq
    simpa using hq.2

/-- C6 witness: both halves at a square owned by "u1": a delete by "u2" is
refused and changes nothing; the delete by the owner removes the square. -/
theorem C6_witness :
    (applyMutation (some "u2") 0 (MutationCall.canvasSquareDelete "s1")
          ⟨[], [], [], [], [], [⟨"s1", "c1", "u1", 0, 0, 80, 80, "#3498db", none, 0⟩]⟩
        = Except.error "Only the owner can delete a square" ∧
      applyStep (some "u2") 0 (MutationCall.canvasSquareDelete "s1")
          ⟨[], [], [], [], [], [⟨"s1", "c1", "u1", 0, 0, 80, 80, "#3498db", none, 0⟩]⟩
        = ⟨[], [], [], [], [], [⟨"s1", "c1", "u1", 0, 0, 80, 80, "#3498db", none, 0⟩]⟩) ∧
    (applyMutation (some "u1") 0 (MutationCall.canvasSquareDelete "s1")
          ⟨[], [], [], [], [], [⟨"s1", "c1", "u1", 0, 0, 80, 80, "#3498db", none, 0⟩]⟩
        = Except.ok
            (⟨[], [], [], [], [], []⟩, [Write.deleteCanvasSquare "s1"]) ∧
      ∀ q ∈ (applyStep (some "u1") 0 (MutationCall.canvasSquareDelete "s1")
          ⟨[], [], [], [], [], [⟨"s1", "c1", "u1", 0, 0, 80, 80, "#3498db", none, 0⟩]⟩).canvasSquares,
        q.id ≠ "s1") :=
  ⟨C6_owner_only_delete.1 _ "u2" "s1" 0
      ⟨"s1", "c1", "u1", 0, 0, 80, 80, "#3498db", none, 0⟩ (by decide) (by decide),
    C6_owner_only_delete.2 _ "s1" 0
      ⟨"s1", "c1", "u1", 0, 0, 80, 80, "#3498db", none, 0⟩ (by decide)⟩

/-- C7 counterexample: an unauthenticated actor (ctx none) calling
message.create or collaborativeDocument.create is not rejected: the mutator
performs the insert (Except.ok with a changed table), since neither mutator
calls mustBeLoggedIn. -/
theorem C7_counterexample :
    applyMutation none 0 (MutationCall.messageCreate "m1" "med1" "u1" "hi" 0) emptyDB
      = Except.ok
          (⟨[⟨"m1", "med1", "u1", "hi", 0⟩], [], [], [], [], []⟩,
            [Write.insertMessage ⟨"m1", "med1", "u1", "hi", 0⟩]) ∧
    applyMutation none 5 (MutationCall.collaborativeDocumentCreate "d1" "T") emptyDB
      = Except.ok
          (⟨[], [⟨"d1", "T", 5⟩], [], [], [], []⟩,
            [Write.insertCollabDoc ⟨"d1", "T", 5⟩]) :=
  ⟨rfl, rfl⟩

/-- C7 (amended): every mutator in the mutators map other than message.create
and collaborativeDocument.create rejects a call with no authenticated context
by throwing "Must be logged in" (so the transaction aborts and the stored
state is unchanged); those two mutators perform their inserts with no
authentication check at all. -/
theorem C7_auth_required_except_create (now : Int) (db : DB) (call : MutationCall)
    (h : call.skipsAuthCheck = false) :
    applyMutation none now call db = Except.error "Must be logged in" ∧
    applyStep none now call db = db := by
  have herr : applyMutation none now call db = Except.error "Must be logged in" := by
    cases call <;> first
      | rfl
      | simp [MutationCall.skipsAuthCheck] at h
  exact ⟨herr, by simp [applyStep, herr]⟩

/-- C7 witness: the amended theorem at message.delete called with no context.
-/
theorem C7_witness :
    applyMutation none 0 (MutationCall.messageDelete "m1") emptyDB
      = Except.error "Must be logged in" ∧
    applyStep none 0 (MutationCall.messageDelete "m1") emptyDB = emptyDB :=
  C7_auth_required_except_create 0 emptyDB (MutationCall.messageDelete "m1") rfl

/-- C8 counterexample: an actor who already holds the drag lock and calls
startDrag again does receive a successful result and the state of the square is
unchanged, but the mutator does issue a tx.mutate canvas_square update writing
draggedBy (the write list is non-empty), contrary to the claim that no further
mutation of draggedBy is issued. -/
theorem C8_counterexample :
    applyMutation (some "u1") 5 (MutationCall.canvasSquareStartDrag "s1")
        ⟨[], [], [], [], [], [⟨"s1", "c1", "u1", 1, 2, 80, 80, "#2ecc71", some "u1", 0⟩]⟩
      = Except.ok
          (⟨[], [], [], [], [], [⟨"s1", "c1", "u1", 1, 2, 80, 80, "#2ecc71", some "u1", 0⟩]⟩,
            [Write.updateCanvasSquareDrag "s1" (some "u1")]) := rfl

/-- C8 (amended): a startDrag by the actor already recorded in draggedBy
succeeds (no denial is thrown) and leaves the stored squares unchanged - the
re-issued update writes the same holder back, so no duplicate lock record and
no change of holder - but it does issue exactly one draggedBy update write. -/
theorem C8_reacquire_idempotent_state (db : DB) (u sqId : String) (now : Int)
    (sq : SquareRow)
    (hfind : db.canvasSquares.find? (fun q => q.id == sqId) = some sq)
    (hheld : sq.draggedBy = some u)
    (hall : ∀ q ∈ db.canvasSquares, q.id = sqId → q.draggedBy = some u) :
    applyMutation (some u) now (MutationCall.canvasSquareStartDrag sqId) db
      = Except.ok (db, [Write.updateCanvasSquareDrag sqId (some u)]) := by
  have hmap : db.canvasSquares.map
      (fun q => if q.id = sqId then { q with draggedBy := some u } else q)
      = db.canvasSquares := by
    apply list_map_id_of_eq
    intro q hq
    by_cases hid : q.id = sqId
    · have hdr := hall q hq hid
      cases q
      simp_all
    · simp [hid]
  simp only [applyMutation, canvasSquare.startDrag, mustBeLoggedIn]
  rw [hfind]
  simp [hheld, hmap, Bind.bind, Except.bind]

/-- C8 witness: the amended theorem at a square held by "u9" re-acquired by
"u9". -/
theorem C8_witness :
    applyMutation (some "u9") 7 (MutationCall.canvasSquareStartDrag "s2")
        ⟨[], [], [], [], [], [⟨"s2", "c1", "u2", 3, 4, 80, 80, "#9b59b6", some "u9", 1⟩]⟩
      = Except.ok
          (⟨[], [], [], [], [], [⟨"s2", "c1", "u2", 3, 4, 80, 80, "#9b59b6", some "u9", 1⟩]⟩,
            [Write.updateCanvasSquareDrag "s2" (some "u9")]) :=
  C8_reacquire_idempotent_state _ "u9" "s2" 7
    ⟨"s2", "c1", "u2", 3, 4, 80, 80, "#9b59b6", some "u9", 1⟩
    (by decide) rfl (by decide)

/-- C10: the stored result of sharedDocument.updateContent is independent of
the cursorPosition argument - two calls identical except for cursorPosition
produce identical results (same shared_document row, same writes) - and a
successful call leaves the user_cursor table unchanged and issues no cursor
write. -/
theorem C10_cursorPosition_ignored (ctx : Option String) (now : Int)
    (documentId content : String) (cp1 cp2 : Int) (db : DB) :
    applyMutation ctx now
        (MutationCall.sharedDocumentUpdateContent documentId content cp1) db
      = applyMutation ctx now
          (MutationCall.sharedDocumentUpdateContent documentId content cp2) db ∧
    ∀ (db2 : DB) (ws : List Write),
      applyMutation ctx now
          (MutationCall.sharedDocumentUpdateContent documentId content cp1) db
        = Except.ok (db2, ws) →
      db2.userCursors = db.userCursors ∧
        ws.all (fun w => !(w.isCursorWrite)) = true := by
  refine ⟨rfl, ?_⟩
  intro db2 ws h
  cases ctx with
  | none =>
    simp [applyMutation, sharedDocument.updateContent, mustBeLoggedIn,
      Bind.bind, Except.bind] at h
  | some u =>
    simp only [applyMutation, sharedDocument.updateContent, mustBeLoggedIn,
      Bind.bind, Except.bind, Except.ok.injEq, Prod.mk.injEq] at h
    obtain ⟨hdb, hws⟩ := h
    subst hdb
    subst hws
    exact ⟨rfl, rfl⟩

/-- C10 witness: the theorem at a concrete logged-in call with cursor
positions 3 and 7 over a one-document state. -/
theorem C10_witness :
    (applyMutation (some "u1") 0
          (MutationCall.sharedDocumentUpdateContent "doc1" "x" 3)
          ⟨[], [], [], [⟨"doc1", "old", 0⟩], [], []⟩
        = applyMutation (some "u1") 0
            (MutationCall.sharedDocumentUpdateContent "doc1" "x" 7)
            ⟨[], [], [], [⟨"doc1", "old", 0⟩], [], []⟩) ∧
    ((⟨[], [], [], [⟨"doc1", "x", 0⟩], [], []⟩ : DB).userCursors
        = (⟨[], [], [], [⟨"doc1", "old", 0⟩], [], []⟩ : DB).userCursors ∧
      ([Write.updateSharedDocument "doc1" "x" 0].all (fun w => !(w.isCursorWrite))) = true) :=
  ⟨(C10_cursorPosition_ignored (some "u1") 0 "doc1" "x" 3 7
      ⟨[], [], [], [⟨"doc1", "old", 0⟩], [], []⟩).1,
    (C10_cursorPosition_ignored (some "u1") 0 "doc1" "x" 3 7
      ⟨[], [], [], [⟨"doc1", "old", 0⟩], [], []⟩).2
      ⟨[], [], [], [⟨"doc1", "x", 0⟩], [], []⟩
      [Write.updateSharedDocument "doc1" "x" 0] rfl⟩
